import Mathlib

/-!
A verification development for the `logger` and `middleware` packages of
`servicelib-golang`: a leveled, ECS-schema structured logger emitting one
JSON object per line, with request-scoped enrichment, plus an HTTP
instrumentation middleware reporting request counts and durations.

The Go code is embedded shallowly:

* `type Level int` becomes `Int`; the five constants keep their values.
* Side effects are made explicit.  A message thunk (`func() LogMessage`,
  which may have side effects through its `fmt.Sprintf` arguments) is a
  state transformer `σ → LogMessage × σ`; each logging operation returns the
  list of lines handed to the sink (`fmt.Fprintln(l.writer, s)` contributes
  `s ++ "\n"`) together with the final thunk state.  A thunk that is never
  forced leaves the state untouched.
* `time.Now().Format(time.RFC3339)` is determinized as an explicit `now`
  argument, and `fmt.Sprintf(format, v...)` as the already-formatted string.
* `json.Marshal` is modeled as a total function to a JSON value (for this
  flat, string/int-only schema Go's marshaler cannot fail, so the
  serialization-failure fallback branch of `Logger.log` is dead); rendering
  the value to the emitted line follows Go's field order, `omitempty`
  handling and string escaping.  `json.Unmarshal` semantics (missing key
  leaves the zero value) give the decoder.
-/

namespace ServiceLib

/-- Go `type Level int` (logger/logger.go). -/
abbrev Level := Int

/-- Log level `DEBUG = iota` (0). -/
def DEBUG : Level := 0

/-- Log level `INFO` (1). -/
def INFO : Level := 1

/-- Log level `WARNING` (2). -/
def WARNING : Level := 2

/-- Log level `ERROR` (3). -/
def ERROR : Level := 3

/-- Log level `FATAL` (4). -/
def FATAL : Level := 4

/-- Go `validLevel`: true iff the level is one of the five enumerated
constants (the `switch` with a five-way case). -/
def validLevel (level : Level) : Bool :=
  level == DEBUG || level == INFO || level == WARNING || level == ERROR || level == FATAL

/-- Go `LevelString`: canonical uppercase name of a level, `""` for any
other value. -/
def LevelString (level : Level) : String :=
  if level == DEBUG then "DEBUG"
  else if level == INFO then "INFO"
  else if level == WARNING then "WARNING"
  else if level == ERROR then "ERROR"
  else if level == FATAL then "FATAL"
  else ""

/-- Go struct `ecsClient` (fields `bytes,omitempty`, `ip,omitempty`,
`port,omitempty`). -/
structure ecsClient where
  Bytes : Int
  IP : String
  Port : String
  deriving Repr, DecidableEq

/-- Go struct `ecsLog` (field `level`, no omitempty). -/
structure ecsLog where
  Level : String
  deriving Repr, DecidableEq

/-- Go struct `ecsNetwork` (field `forwarded_ip,omitempty`). -/
structure ecsNetwork where
  ForwardedIP : String
  deriving Repr, DecidableEq

/-- Go struct `ecsService` (fields `name,omitempty`, `type,omitempty`).
`Type` is a reserved word in Lean, hence `Type'`. -/
structure ecsService where
  Name : String
  Type' : String
  deriving Repr, DecidableEq

/-- Go struct `ecsTrace` (field `id,omitempty`). -/
structure ecsTrace where
  ID : String
  deriving Repr, DecidableEq

/-- Go struct `LogMessage`: the wire schema.  Go pointer fields
(`*ecsClient`, `*ecsNetwork`, `*ecsTrace`, each tagged `omitempty`) become
`Option`; `nil` is `none`. -/
structure LogMessage where
  Timestamp : String
  Message : String
  Client : Option ecsClient
  Log : ecsLog
  Network : Option ecsNetwork
  Service : ecsService
  Trace : Option ecsTrace
  deriving Repr, DecidableEq

/-- JSON values, as produced by `encoding/json` for this schema: strings,
integers and objects (ordered field lists). -/
inductive Json where
  | str : String → Json
  | num : Int → Json
  | obj : List (String × Json) → Json
  deriving Repr

/-- One hexadecimal digit, lower case (as `encoding/json` uses for `\u00XX`
escapes). -/
def hexDigit (n : Nat) : String :=
  if n = 0 then "0" else if n = 1 then "1" else if n = 2 then "2"
  else if n = 3 then "3" else if n = 4 then "4" else if n = 5 then "5"
  else if n = 6 then "6" else if n = 7 then "7" else if n = 8 then "8"
  else if n = 9 then "9" else if n = 10 then "a" else if n = 11 then "b"
  else if n = 12 then "c" else if n = 13 then "d" else if n = 14 then "e"
  else "f"

/-- Escaping of a single character inside a JSON string, following Go's
`encoding/json` default encoder: `"` and `\` are backslash-escaped, newline,
carriage return and tab use their short forms, other control characters use
`\u00XX`, and `<`, `>`, `&`, U+2028, U+2029 are escaped for HTML safety. -/
def escapeChar (c : Char) : String :=
  if c = '"' then "\\\""
  else if c = '\\' then "\\\\"
  else if c = '\n' then "\\n"
  else if c = '\r' then "\\r"
  else if c = '\t' then "\\t"
  else if c = '<' then "\\u003c"
  else if c = '>' then "\\u003e"
  else if c = '&' then "\\u0026"
  else if c.toNat < 0x20 then "\\u00" ++ hexDigit (c.toNat / 16) ++ hexDigit (c.toNat % 16)
  else if c.toNat = 0x2028 then "\\u2028"
  else if c.toNat = 0x2029 then "\\u2029"
  else String.singleton c

/-- A JSON string literal: quoted, with every character escaped as Go's
encoder does. -/
def renderString (s : String) : String :=
  "\"" ++ String.join (s.toList.map escapeChar) ++ "\""

mutual

/-- Render a JSON value to its wire form (the single line handed to the
sink, before the trailing newline `Fprintln` adds). -/
def Json.render : Json → String
  | Json.str s => renderString s
  | Json.num n => toString n
  | Json.obj fields => "\x7b" ++ Json.renderFields fields ++ "\x7d"

/-- Render an object body: comma-separated `"key":value` pairs in order. -/
def Json.renderFields : List (String × Json) → String
  | [] => ""
  | [(k, v)] => renderString k ++ ":" ++ Json.render v
  | (k, v) :: rest => renderString k ++ ":" ++ Json.render v ++ "," ++ Json.renderFields rest

end

/-- First-match association lookup among an object's fields (Go's encoder
below never emits duplicate keys). -/
def Json.lookup : List (String × Json) → String → Option Json
  | [], _ => none
  | (k, v) :: rest, key => if k = key then some v else Json.lookup rest key

/-- Marshaling of `ecsClient`: each field is dropped when it has Go's empty
value (`omitempty`). -/
def ecsClient.marshalFields (c : ecsClient) : List (String × Json) :=
  (if c.Bytes = 0 then [] else [("bytes", Json.num c.Bytes)]) ++
  (if c.IP = "" then [] else [("ip", Json.str c.IP)]) ++
  (if c.Port = "" then [] else [("port", Json.str c.Port)])

/-- Marshaling of `ecsLog`: `level` has no `omitempty`, so it is always
present. -/
def ecsLog.marshalFields (lg : ecsLog) : List (String × Json) :=
  [("level", Json.str lg.Level)]

/-- Marshaling of `ecsNetwork` (`forwarded_ip,omitempty`). -/
def ecsNetwork.marshalFields (n : ecsNetwork) : List (String × Json) :=
  if n.ForwardedIP = "" then [] else [("forwarded_ip", Json.str n.ForwardedIP)]

/-- Marshaling of `ecsService` (`name,omitempty`, `type,omitempty`). -/
def ecsService.marshalFields (sv : ecsService) : List (String × Json) :=
  (if sv.Name = "" then [] else [("name", Json.str sv.Name)]) ++
  (if sv.Type' = "" then [] else [("type", Json.str sv.Type')])

/-- Marshaling of `ecsTrace` (`id,omitempty`). -/
def ecsTrace.marshalFields (t : ecsTrace) : List (String × Json) :=
  if t.ID = "" then [] else [("id", Json.str t.ID)]

/-- Marshaling of `LogMessage` in Go struct-field order: `@timestamp`,
`message`, `client` (omitted when `nil`), `log`, `network` (omitted when
`nil`), `service`, `trace` (omitted when `nil`). -/
def LogMessage.marshalFields (m : LogMessage) : List (String × Json) :=
  [("@timestamp", Json.str m.Timestamp), ("message", Json.str m.Message)] ++
  (match m.Client with
   | none => []
   | some c => [("client", Json.obj c.marshalFields)]) ++
  [("log", Json.obj m.Log.marshalFields)] ++
  (match m.Network with
   | none => []
   | some n => [("network", Json.obj n.marshalFields)]) ++
  [("service", Json.obj m.Service.marshalFields)] ++
  (match m.Trace with
   | none => []
   | some t => [("trace", Json.obj t.marshalFields)])

/-- `json.Marshal` of a `LogMessage` (total for this schema). -/
def LogMessage.marshal (m : LogMessage) : Json :=
  Json.obj m.marshalFields

/-! ### Unmarshaling (Go `json.Unmarshal` semantics)

A key absent from the object leaves the target field at its Go zero value;
a present key must carry a value of the right shape. -/

/-- Decode a string-typed field; missing means the zero value `""`. -/
def decodeStrField (fields : List (String × Json)) (key : String) : Option String :=
  match Json.lookup fields key with
  | none => some ""
  | some (Json.str s) => some s
  | some _ => none

/-- Decode an int-typed field; missing means the zero value `0`. -/
def decodeIntField (fields : List (String × Json)) (key : String) : Option Int :=
  match Json.lookup fields key with
  | none => some 0
  | some (Json.num n) => some n
  | some _ => none

/-- Decode the body of a `client` object. -/
def decodeClientFields (cf : List (String × Json)) : Option ecsClient :=
  match decodeIntField cf "bytes", decodeStrField cf "ip", decodeStrField cf "port" with
  | some b, some ip, some p => some ⟨b, ip, p⟩
  | _, _, _ => none

/-- Decode the `client` pointer field; missing key means `nil`. -/
def decodeClient (fields : List (String × Json)) : Option (Option ecsClient) :=
  match Json.lookup fields "client" with
  | none => some none
  | some (Json.obj cf) => (decodeClientFields cf).map some
  | some _ => none

/-- Decode the body of a `log` object. -/
def decodeLogFields (lf : List (String × Json)) : Option ecsLog :=
  (decodeStrField lf "level").map (⟨·⟩)

/-- Decode the `log` field; missing key leaves the zero `ecsLog`. -/
def decodeLog (fields : List (String × Json)) : Option ecsLog :=
  match Json.lookup fields "log" with
  | none => some ⟨""⟩
  | some (Json.obj lf) => decodeLogFields lf
  | some _ => none

/-- Decode the body of a `network` object. -/
def decodeNetworkFields (nf : List (String × Json)) : Option ecsNetwork :=
  (decodeStrField nf "forwarded_ip").map (⟨·⟩)

/-- Decode the `network` pointer field; missing key means `nil`. -/
def decodeNetwork (fields : List (String × Json)) : Option (Option ecsNetwork) :=
  match Json.lookup fields "network" with
  | none => some none
  | some (Json.obj nf) => (decodeNetworkFields nf).map some
  | some _ => none

/-- Decode the body of a `service` object. -/
def decodeServiceFields (sf : List (String × Json)) : Option ecsService :=
  match decodeStrField sf "name", decodeStrField sf "type" with
  | some nm, some ty => some ⟨nm, ty⟩
  | _, _ => none

/-- Decode the `service` field; missing key leaves the zero `ecsService`. -/
def decodeService (fields : List (String × Json)) : Option ecsService :=
  match Json.lookup fields "service" with
  | none => some ⟨"", ""⟩
  | some (Json.obj sf) => decodeServiceFields sf
  | some _ => none

/-- Decode the body of a `trace` object. -/
def decodeTraceFields (tf : List (String × Json)) : Option ecsTrace :=
  (decodeStrField tf "id").map (⟨·⟩)

/-- Decode the `trace` pointer field; missing key means `nil`. -/
def decodeTrace (fields : List (String × Json)) : Option (Option ecsTrace) :=
  match Json.lookup fields "trace" with
  | none => some none
  | some (Json.obj tf) => (decodeTraceFields tf).map some
  | some _ => none

/-- `json.Unmarshal` of a whole `LogMessage` document. -/
def decodeLogMessage (j : Json) : Option LogMessage :=
  match j with
  | Json.obj fields =>
    match decodeStrField fields "@timestamp", decodeStrField fields "message",
          decodeClient fields, decodeLog fields, decodeNetwork fields,
          decodeService fields, decodeTrace fields with
    | some ts, some msg, some c, some lg, some nw, some sv, some tr =>
      some ⟨ts, msg, c, lg, nw, sv, tr⟩
    | _, _, _, _, _, _, _ => none
  | _ => none

/-! ### The Logger and its pipeline -/

/-- Go struct `Logger` (logger version of `NewLogger(writer, serviceName,
logLevel)`): a sink, a service identity and a minimum level, all fixed at
construction.  The sink value is carried as a type parameter `W`; the lines
handed to it appear as explicit outputs of each operation. -/
structure Logger (W : Type) where
  writer : W
  serviceName : String
  logLevel : Level
  deriving Repr

/-- Go `NewLogger`: fails with `Unsupported log level` unless the requested
minimum level is one of the five constants. -/
def NewLogger {W : Type} (writer : W) (serviceName : String) (logLevel : Level) :
    Except String (Logger W) :=
  if !validLevel logLevel then
    Except.error ("Unsupported log level: " ++ toString logLevel)
  else
    Except.ok { writer := writer, serviceName := serviceName, logLevel := logLevel }

/-- Go `Logger.send`: `fmt.Fprintln(l.writer, s)` hands `s` plus a trailing
newline to the sink, as one line. -/
def Logger.send {W : Type} (_l : Logger W) (s : String) : List String :=
  [s ++ "\n"]

/-- The record built by the closure `Logger.basicLogMessage` returns:
message text, timestamp, service identity and level string; no optional
blocks. -/
def Logger.basicRecord {W : Type} (l : Logger W) (now : String) (level : Level)
    (msgText : String) : LogMessage :=
  { Message := msgText
    Timestamp := now
    Client := none
    Network := none
    Trace := none
    Service := { Name := l.serviceName, Type' := "" }
    Log := { Level := LevelString level } }

/-- Go `Logger.basicLogMessage`: a thunk producing the basic record.  The
closure itself is effect-free; `σ` is the state its (absent) side effects
would act on. -/
def Logger.basicLogMessage {W σ : Type} (l : Logger W) (now : String) (level : Level)
    (msgText : String) : σ → LogMessage × σ :=
  fun s => (l.basicRecord now level msgText, s)

/-- The body of Go `Logger.log` after the level-validity check: filter
against the configured minimum, then force the thunk, marshal, and send the
line.  (The `json.Marshal` error branch of the source is dead here: the
marshaler is total on this schema.) -/
def Logger.logValid {W σ : Type} (l : Logger W) (level : Level)
    (t : σ → LogMessage × σ) (s : σ) : List String × σ :=
  if level < l.logLevel then ([], s)
  else
    let (message, s1) := t s
    (l.send (Json.render (LogMessage.marshal message)), s1)

/-- The diagnostic text `fmt.Sprintf("Invalid log level specified (%d);
This is a bug!", level)`. -/
def sprintfInvalidLevel (level : Level) : String :=
  "Invalid log level specified (" ++ toString level ++ "); This is a bug!"

/-- Go `Logger.log`.  An invalid level first produces the ERROR diagnostic
through `l.Error` — which is `log` at the valid level ERROR, so that inner
call is unfolded to `logValid` — and the call then continues with the level
coerced to ERROR. -/
def Logger.log {W σ : Type} (l : Logger W) (now : String) (level : Level)
    (t : σ → LogMessage × σ) (s : σ) : List String × σ :=
  if validLevel level then l.logValid level t s
  else
    let (diag, s1) := l.logValid ERROR (l.basicLogMessage now ERROR (sprintfInvalidLevel level)) s
    let (out, s2) := l.logValid ERROR t s1
    (diag ++ out, s2)

/-- Go `Logger.log` with the self-call through `l.Error` kept as a genuine
recursive call, bounded by explicit fuel; `none` means the fuel ran out
before the call completed. -/
def Logger.logFuel {W σ : Type} (l : Logger W) (now : String) :
    Nat → Level → (σ → LogMessage × σ) → σ → Option (List String × σ)
  | 0, _, _, _ => none
  | fuel + 1, level, t, s =>
    if validLevel level then some (l.logValid level t s)
    else
      match l.logFuel now fuel ERROR (l.basicLogMessage now ERROR (sprintfInvalidLevel level)) s with
      | none => none
      | some (diag, s1) =>
        let (out, s2) := l.logValid ERROR t s1
        some (diag ++ out, s2)

/-- Go `Logger.Debug`. -/
def Logger.Debug {W σ : Type} (l : Logger W) (now msgText : String) (s : σ) :
    List String × σ :=
  l.log now DEBUG (l.basicLogMessage now DEBUG msgText) s

/-- Go `Logger.Info`. -/
def Logger.Info {W σ : Type} (l : Logger W) (now msgText : String) (s : σ) :
    List String × σ :=
  l.log now INFO (l.basicLogMessage now INFO msgText) s

/-- Go `Logger.Warning`. -/
def Logger.Warning {W σ : Type} (l : Logger W) (now msgText : String) (s : σ) :
    List String × σ :=
  l.log now WARNING (l.basicLogMessage now WARNING msgText) s

/-- Go `Logger.Error`. -/
def Logger.Error {W σ : Type} (l : Logger W) (now msgText : String) (s : σ) :
    List String × σ :=
  l.log now ERROR (l.basicLogMessage now ERROR msgText) s

/-- Go `Logger.Fatal`. -/
def Logger.Fatal {W σ : Type} (l : Logger W) (now msgText : String) (s : σ) :
    List String × σ :=
  l.log now FATAL (l.basicLogMessage now FATAL msgText) s

/-- Go `strings.TrimSuffix`: drop one copy of `suffix` from the end, when
present (stated over character lists). -/
def trimSuffix (s suffix : String) : String :=
  if suffix.toList.isSuffixOf s.toList then
    String.mk (s.toList.take (s.toList.length - suffix.toList.length))
  else s

/-- Go `Logger.Write` (the `io.Writer` face): log the bytes, with trailing
newline stripped, as one WARNING message, and return `(len(bytes), nil)`.
Byte slices are modeled as strings; `len` is the UTF-8 byte count. -/
def Logger.Write {W σ : Type} (l : Logger W) (now : String) (bytes : String) (s : σ) :
    (List String × σ) × (Nat × Option String) :=
  (l.log now WARNING (l.basicLogMessage now WARNING (trimSuffix bytes "\n")) s,
   (bytes.utf8ByteSize, none))

/-! ### Request-scoped logging -/

/-- Index of the first occurrence of a character. -/
def firstIdx (cs : List Char) (c : Char) : Option Nat :=
  cs.findIdx? (· == c)

/-- Index of the last occurrence of a character. -/
def lastIdx (cs : List Char) (c : Char) : Option Nat :=
  (cs.reverse.findIdx? (· == c)).map (fun i => cs.length - 1 - i)

/-- Go `net.SplitHostPort`: split `host:port` (or `[host]:port`) around the
last colon.  Errors: no colon at all; a colon inside an unbracketed host; a
missing or misplaced `]`; stray brackets. -/
def splitHostPort (hostport : String) : Except String (String × String) :=
  let cs := hostport.toList
  match lastIdx cs ':' with
  | none => Except.error "missing port in address"
  | some i =>
    if cs.head? = some '[' then
      match firstIdx cs ']' with
      | none => Except.error "missing ']' in address"
      | some e =>
        if e + 1 = cs.length then Except.error "missing port in address"
        else if e + 1 = i then
          if ((cs.drop 1).contains '[') then Except.error "unexpected '[' in address"
          else if ((cs.drop (e + 1)).contains ']') then Except.error "unexpected ']' in address"
          else Except.ok (String.mk ((cs.drop 1).take (e - 1)), String.mk (cs.drop (i + 1)))
        else if cs.get? (e + 1) = some ':' then Except.error "too many colons in address"
        else Except.error "missing port in address"
    else
      if (cs.take i).contains ':' then Except.error "too many colons in address"
      else if cs.contains '[' then Except.error "unexpected '[' in address"
      else if cs.contains ']' then Except.error "unexpected ']' in address"
      else Except.ok (String.mk (cs.take i), String.mk (cs.drop (i + 1)))

/-- True iff an `Except` is an error. -/
def isErr {ε α : Type} : Except ε α → Bool
  | Except.error _ => true
  | Except.ok _ => false

/-- `fmt.Sprintf("%q", s)` restricted to strings of printable characters
without quotes or backslashes (every address in scope): Go-quote by
surrounding with double quotes, escaping `\` and `"`. -/
def goQuote (s : String) : String :=
  "\"" ++ String.join (s.toList.map (fun c =>
    if c = '"' then "\\\"" else if c = '\\' then "\\\\" else String.singleton c)) ++ "\""

/-- The inbound request surface `Logger.Request` consumes: Go
`Header.Get(k)` returns `""` for an absent header, so `""` encodes absence
here too. -/
structure Request where
  xRequestID : String
  remoteAddr : String
  xForwardedFor : String
  deriving Repr, DecidableEq

/-- Go struct `RequestScopedLogger`: the parent logger plus the enrichment
snapshot captured at scope creation. -/
structure RequestScopedLogger (W : Type) where
  logger : Logger W
  client : Option ecsClient
  network : Option ecsNetwork
  trace : Option ecsTrace

/-- The record built by the closure inside `RequestScopedLogger.Log`:
timestamp, message, the captured `client` and `trace` snapshots, level
string and service identity.  Note the source omits `Network` from the
record literal, so the captured `network` snapshot never reaches the wire. -/
def RequestScopedLogger.scopedRecord {W : Type} (sc : RequestScopedLogger W) (now : String)
    (level : Level) (msgText : String) : LogMessage :=
  { Timestamp := now
    Message := msgText
    Client := sc.client
    Log := { Level := LevelString level }
    Network := none
    Service := { Name := sc.logger.serviceName, Type' := "" }
    Trace := sc.trace }

/-- Go `RequestScopedLogger.Log`: the generic `log` with a thunk building
the enriched record. -/
def RequestScopedLogger.Log {W σ : Type} (sc : RequestScopedLogger W) (now : String)
    (level : Level) (msgText : String) (st : σ) : List String × σ :=
  sc.logger.log now level (fun st => (sc.scopedRecord now level msgText, st)) st

/-- Go `Logger.Request`: derive a request scope.  `trace` is set when the
`X-Request-ID` header is nonempty; `client` when the peer address splits as
`ip:port`, with a diagnostic through `l.Error` when it does not; `network`
when `X-Forwarded-For` is nonempty.  The returned lines are those the
`Error` diagnostic handed to the sink. -/
def Logger.Request {W σ : Type} (l : Logger W) (now : String) (r : Request) (s : σ) :
    RequestScopedLogger W × (List String × σ) :=
  let rs0 : RequestScopedLogger W := { logger := l, client := none, network := none, trace := none }
  let rs1 := if r.xRequestID ≠ "" then { rs0 with trace := some ⟨r.xRequestID⟩ } else rs0
  match splitHostPort r.remoteAddr with
  | Except.ok (address, port) =>
    let rs2 := { rs1 with client := some ⟨0, address, port⟩ }
    let rs3 := if r.xForwardedFor ≠ "" then { rs2 with network := some ⟨r.xForwardedFor⟩ } else rs2
    (rs3, ([], s))
  | Except.error _ =>
    let (lines, s1) := l.Error now ("Unable to parse " ++ goQuote r.remoteAddr ++ " as IP:port") s
    let rs3 := if r.xForwardedFor ≠ "" then { rs1 with network := some ⟨r.xForwardedFor⟩ } else rs1
    (rs3, (lines, s1))

/-! ### Prometheus instrumentation middleware (middleware/prometheus.go) -/

/-- One operation against the metrics backend: a counter increment or a
histogram observation, each labeled `(status, method)`.  The observed
duration value is opaque (type `δ`). -/
inductive MetricOp (δ : Type) where
  | inc (status : String) (method : String) : MetricOp δ
  | observe (status : String) (method : String) (seconds : δ) : MetricOp δ
  deriving Repr, DecidableEq

/-- Go struct `statusObserver`: the wrapped `ResponseWriter`'s effects are
external; only the tracked status is modeled. -/
structure StatusObserver where
  status : Int
  deriving Repr, DecidableEq

/-- Go `statusObserver.WriteHeader`: record the code (and forward it to the
underlying writer, an external effect). -/
def StatusObserver.WriteHeader (o : StatusObserver) (code : Int) : StatusObserver :=
  { o with status := code }

/-- Go `newStatusObserver`: default status 200. -/
def newStatusObserver : StatusObserver :=
  { status := 200 }

/-- The downstream handler's interaction with the observer, represented by
the sequence of status codes it passes to `WriteHeader`. -/
def serveWith (writes : List Int) (o : StatusObserver) : StatusObserver :=
  writes.foldl StatusObserver.WriteHeader o

/-- Go `strconv.Itoa`. -/
def strconvItoa (n : Int) : String :=
  toString n

/-- Go `PrometheusInstrumentationMiddleware`, one wrapped request: run the
downstream handler against a fresh observer, then issue the histogram
observation and the counter increment, both labeled with the final status
and the request method.  `elapsed` stands for `time.Since(start).Seconds()`. -/
def PrometheusInstrumentationMiddleware (δ : Type) (method : String)
    (writes : List Int) (elapsed : δ) : List (MetricOp δ) :=
  let observer := serveWith writes newStatusObserver
  [MetricOp.observe (strconvItoa observer.status) method elapsed,
   MetricOp.inc (strconvItoa observer.status) method]

/-! ### Concrete sample values (used by the closed-form corollaries below) -/

/-- A logger with minimum level INFO over a trivial sink value. -/
def sampleLogger : Logger Unit :=
  { writer := (), serviceName := "svc", logLevel := INFO }

/-- A logger with minimum level ERROR. -/
def errorMinLogger : Logger Unit :=
  { writer := (), serviceName := "svc", logLevel := ERROR }

/-- A logger with minimum level FATAL. -/
def fatalMinLogger : Logger Unit :=
  { writer := (), serviceName := "svc", logLevel := FATAL }

/-- A scope over `sampleLogger` with no enrichment. -/
def sampleScope : RequestScopedLogger Unit :=
  { logger := sampleLogger, client := none, network := none, trace := none }

/-- A concrete record, used as the payload of side-effecting thunks. -/
def sampleMsg : LogMessage :=
  { Timestamp := "T", Message := "payload", Client := none, Log := { Level := "INFO" },
    Network := none, Service := { Name := "svc", Type' := "" }, Trace := none }

/-- A thunk with an observable side effect: forcing it increments a
counter.  If a call returns the counter unchanged, the thunk was never
forced. -/
def sampleThunk : Nat → LogMessage × Nat :=
  fun n => (sampleMsg, n + 1)

/-- A request whose peer address cannot be split as `ip:port`. -/
def badAddrRequest : Request :=
  { xRequestID := "req-1", remoteAddr := "not-an-address", xForwardedFor := "" }

/-- A request carrying an `X-Request-ID` header. -/
def tracedRequest : Request :=
  { xRequestID := "abc-123", remoteAddr := "127.0.0.1:8080", xForwardedFor := "" }

/-- A request without an `X-Request-ID` header. -/
def untracedRequest : Request :=
  { xRequestID := "", remoteAddr := "127.0.0.1:8080", xForwardedFor := "" }

/-! ## Round-trip lemmas for the JSON codec -/

theorem decodeClientFields_marshalFields (c : ecsClient) :
    decodeClientFields c.marshalFields = some c := by
  rcases c with ⟨b, ip, p⟩
  by_cases hb : b = 0 <;> by_cases hip : ip = "" <;> by_cases hp : p = "" <;>
    simp [ecsClient.marshalFields, decodeClientFields, decodeIntField, decodeStrField,
      Json.lookup, hb, hip, hp]

theorem decodeLogFields_marshalFields (lg : ecsLog) :
    decodeLogFields lg.marshalFields = some lg := by
  rcases lg with ⟨lv⟩
  simp [ecsLog.marshalFields, decodeLogFields, decodeStrField, Json.lookup]

theorem decodeNetworkFields_marshalFields (n : ecsNetwork) :
    decodeNetworkFields n.marshalFields = some n := by
  rcases n with ⟨f⟩
  by_cases hf : f = "" <;>
    simp [ecsNetwork.marshalFields, decodeNetworkFields, decodeStrField, Json.lookup, hf]

theorem decodeServiceFields_marshalFields (sv : ecsService) :
    decodeServiceFields sv.marshalFields = some sv := by
  rcases sv with ⟨nm, ty⟩
  by_cases hn : nm = "" <;> by_cases ht : ty = "" <;>
    simp [ecsService.marshalFields, decodeServiceFields, decodeStrField, Json.lookup, hn, ht]

theorem decodeTraceFields_marshalFields (t : ecsTrace) :
    decodeTraceFields t.marshalFields = some t := by
  rcases t with ⟨id⟩
  by_cases hi : id = "" <;>
    simp [ecsTrace.marshalFields, decodeTraceFields, decodeStrField, Json.lookup, hi]

/-- Unmarshal after marshal is the identity: every record survives the trip
over the wire. -/
theorem decodeLogMessage_marshal (m : LogMessage) :
    decodeLogMessage m.marshal = some m := by
  rcases m with ⟨ts, msg, client, lg, nw, sv, tr⟩
  cases client <;> cases nw <;> cases tr <;>
    simp [LogMessage.marshal, LogMessage.marshalFields, decodeLogMessage, decodeClient,
      decodeLog, decodeNetwork, decodeService, decodeTrace, decodeStrField, Json.lookup,
      decodeClientFields_marshalFields, decodeLogFields_marshalFields,
      decodeNetworkFields_marshalFields, decodeServiceFields_marshalFields,
      decodeTraceFields_marshalFields]

/-! ## Unfolding lemmas for the logging pipeline -/

/-- A call below the configured minimum returns immediately: no lines, and
the thunk is never forced (the state comes back untouched). -/
theorem logValid_filtered {W σ : Type} (l : Logger W) (L : Level) (t : σ → LogMessage × σ)
    (s : σ) (h : L < l.logLevel) : l.logValid L t s = ([], s) := by
  unfold Logger.logValid
  rw [if_pos h]

/-- A call at or above the configured minimum forces the thunk once and
hands exactly the marshaled record, as one line, to the sink. -/
theorem logValid_emits {W σ : Type} (l : Logger W) (L : Level) (t : σ → LogMessage × σ)
    (s : σ) (h : l.logLevel ≤ L) :
    l.logValid L t s = (l.send (Json.render (LogMessage.marshal (t s).1)), (t s).2) := by
  unfold Logger.logValid
  rw [if_neg (not_lt.mpr h)]

/-- At a valid level, `log` is just the filter-and-emit body. -/
theorem log_valid_eq {W σ : Type} (l : Logger W) (now : String) (L : Level)
    (t : σ → LogMessage × σ) (s : σ) (h : validLevel L = true) :
    l.log now L t s = l.logValid L t s := by
  unfold Logger.log
  rw [h]
  simp only [if_true]

/-- Each per-level method is the generic `log` at its fixed level with a
`basicLogMessage` thunk (definitional). -/
theorem debug_eq_log {W σ : Type} (l : Logger W) (now msgText : String) (s : σ) :
    l.Debug now msgText s = l.log now DEBUG (l.basicLogMessage now DEBUG msgText) s := rfl

/-- `Info` unfolds to `log` at INFO (definitional). -/
theorem info_eq_log {W σ : Type} (l : Logger W) (now msgText : String) (s : σ) :
    l.Info now msgText s = l.log now INFO (l.basicLogMessage now INFO msgText) s := rfl

/-- `Warning` unfolds to `log` at WARNING (definitional). -/
theorem warning_eq_log {W σ : Type} (l : Logger W) (now msgText : String) (s : σ) :
    l.Warning now msgText s = l.log now WARNING (l.basicLogMessage now WARNING msgText) s := rfl

/-- `Error` unfolds to `log` at ERROR (definitional). -/
theorem error_eq_log {W σ : Type} (l : Logger W) (now msgText : String) (s : σ) :
    l.Error now msgText s = l.log now ERROR (l.basicLogMessage now ERROR msgText) s := rfl

/-- `Fatal` unfolds to `log` at FATAL (definitional). -/
theorem fatal_eq_log {W σ : Type} (l : Logger W) (now msgText : String) (s : σ) :
    l.Fatal now msgText s = l.log now FATAL (l.basicLogMessage now FATAL msgText) s := rfl

/-- Folding `WriteHeader` over a sequence of codes leaves the last code
written, or the starting status if none was. -/
theorem serveWith_last (writes : List Int) (o : StatusObserver) :
    serveWith writes o = { status := (writes.getLast?).getD o.status } := by
  induction writes generalizing o with
  | nil => rfl
  | cons a t ih =>
    have hstep : serveWith (a :: t) o = serveWith t ⟨a⟩ := rfl
    rw [hstep, ih]
    cases t with
    | nil => rfl
    | cons b t' =>
      obtain ⟨x, hx⟩ := Option.isSome_iff_exists.mp
        (show (b :: t').getLast?.isSome from List.getLast?_isSome.mpr (by simp))
      simp [List.getLast?_cons_cons, hx]

/-- What `Logger.Request` puts in each enrichment field: `trace` from a
nonempty `X-Request-ID`, `client` from a successfully split peer address,
`network` from a nonempty `X-Forwarded-For`; the parent pointer is the
deriving logger. -/
theorem request_scope_fields {W σ : Type} (l : Logger W) (now : String) (r : Request) (s : σ) :
    ((l.Request now r s).1).logger = l
    ∧ ((l.Request now r s).1).trace = (if r.xRequestID ≠ "" then some ⟨r.xRequestID⟩ else none)
    ∧ ((l.Request now r s).1).network =
        (if r.xForwardedFor ≠ "" then some ⟨r.xForwardedFor⟩ else none)
    ∧ ((l.Request now r s).1).client =
        (match splitHostPort r.remoteAddr with
         | Except.ok (a, p) => some ⟨0, a, p⟩
         | Except.error _ => none) := by
  cases hsp : splitHostPort r.remoteAddr with
  | ok ap =>
    rcases ap with ⟨a, p⟩
    by_cases hid : r.xRequestID = "" <;> by_cases hf : r.xForwardedFor = "" <;>
      simp [Logger.Request, hsp, hid, hf]
  | error e =>
    by_cases hid : r.xRequestID = "" <;> by_cases hf : r.xForwardedFor = "" <;>
      simp [Logger.Request, hsp, hid, hf]

/-- An unfiltered scoped call hands exactly the marshaled scoped record to
the sink, as one line. -/
theorem scopedLog_emits {W σ : Type} (sc : RequestScopedLogger W) (now msgText : String)
    (L : Level) (st : σ) (hL : validLevel L = true) (hGe : sc.logger.logLevel ≤ L) :
    sc.Log now L msgText st = ([Json.render (sc.scopedRecord now L msgText).marshal ++ "\n"], st) := by
  unfold RequestScopedLogger.Log
  rw [log_valid_eq _ _ _ _ _ hL, logValid_emits _ _ _ _ hGe]
  simp [Logger.send, LogMessage.marshal]

/-! ## Claim theorems -/

/-- **C1.** For every valid configured minimum `M` and every call at a
valid level `L` through the generic `log` (to which each per-level method
is definitionally equal, see `debug_eq_log` … `fatal_eq_log`) or through
`RequestScopedLogger.Log`: exactly one line is handed to the sink iff
`L ≥ M`; if `L < M` the call returns no lines and with the start state
untouched — so the message thunk, whose side effects are the only way the
state could change, was never invoked. -/
theorem log_line_iff_level_ge_min {W σ : Type} (l : Logger W) (sc : RequestScopedLogger W)
    (now msgText : String) (L : Level) (t : σ → LogMessage × σ) (s : σ)
    (_hM : validLevel l.logLevel = true) (_hscM : validLevel sc.logger.logLevel = true)
    (hL : validLevel L = true) :
    ((l.logLevel ≤ L → (l.log now L t s).1.length = 1)
      ∧ (L < l.logLevel → l.log now L t s = ([], s)))
    ∧ ((sc.logger.logLevel ≤ L → (sc.Log now L msgText s).1.length = 1)
      ∧ (L < sc.logger.logLevel → sc.Log now L msgText s = ([], s))) := by
  refine ⟨⟨fun h => ?_, fun h => ?_⟩, ⟨fun h => ?_, fun h => ?_⟩⟩
  · rw [log_valid_eq _ _ _ _ _ hL, logValid_emits _ _ _ _ h]
    simp [Logger.send]
  · rw [log_valid_eq _ _ _ _ _ hL, logValid_filtered _ _ _ _ h]
  · unfold RequestScopedLogger.Log
    rw [log_valid_eq _ _ _ _ _ hL, logValid_emits _ _ _ _ h]
    simp [Logger.send]
  · unfold RequestScopedLogger.Log
    rw [log_valid_eq _ _ _ _ _ hL, logValid_filtered _ _ _ _ h]

/-- Witness for C1: with minimum INFO, a DEBUG call emits nothing and
leaves the effect counter at 0 (the thunk was never forced), while a
WARNING call emits exactly one line. -/
theorem log_line_iff_level_ge_min_witness :
    validLevel sampleLogger.logLevel = true ∧ validLevel DEBUG = true
    ∧ validLevel WARNING = true
    ∧ sampleLogger.log "T" DEBUG sampleThunk 0 = ([], 0)
    ∧ (sampleLogger.log "T" WARNING sampleThunk 0).1.length = 1 :=
  ⟨by decide, by decide, by decide,
   (log_line_iff_level_ge_min sampleLogger sampleScope "T" "m" DEBUG sampleThunk 0
      (by decide) (by decide) (by decide)).1.2 (by decide),
   (log_line_iff_level_ge_min sampleLogger sampleScope "T" "m" WARNING sampleThunk 0
      (by decide) (by decide) (by decide)).1.1 (by decide)⟩

/-- **C2, counterexample.** With configured minimum FATAL (a valid level),
a call at the invalid level 99 hands zero lines to the sink: the ERROR
self-diagnostic and the coerced record are both filtered out (ERROR <
FATAL), so the record *is* dropped silently — refuting the claim's "for
every configured minimum level". -/
theorem invalid_level_dropped_at_fatal_min :
    fatalMinLogger.log "T" 99 sampleThunk 0 = ([], 0) := by
  decide

/-- **C2 (amended).** For an invalid level and any configured minimum *at
most ERROR*: the call emits an ERROR-level self-diagnostic noting the
invalid level, coerces the call to ERROR, and still emits the original
record after it; the call returns normally (it cannot fail by type).  With
minimum FATAL both lines are filtered like any ERROR record
(`invalid_level_dropped_at_fatal_min`). -/
theorem invalid_level_selfcorrects {W σ : Type} (l : Logger W) (now : String) (L : Level)
    (t : σ → LogMessage × σ) (s : σ) (_hM : validLevel l.logLevel = true)
    (hMe : l.logLevel ≤ ERROR) (hL : validLevel L = false) :
    l.log now L t s =
      (l.send (Json.render (LogMessage.marshal (l.basicRecord now ERROR (sprintfInvalidLevel L))))
        ++ l.send (Json.render (LogMessage.marshal (t s).1)), (t s).2) := by
  unfold Logger.log
  rw [hL]
  simp only [Bool.false_eq_true, if_false]
  rw [logValid_emits l ERROR (l.basicLogMessage now ERROR (sprintfInvalidLevel L)) s hMe]
  rw [logValid_emits l ERROR t _ hMe]
  simp [Logger.basicLogMessage]

/-- Witness for the amended C2: minimum ERROR, invalid level 99 — the
diagnostic line and the record line both reach the sink, and the thunk was
forced exactly once (counter 0 → 1). -/
theorem invalid_level_selfcorrects_witness :
    validLevel errorMinLogger.logLevel = true ∧ errorMinLogger.logLevel ≤ ERROR
    ∧ validLevel 99 = false
    ∧ errorMinLogger.log "T" 99 sampleThunk 0 =
      (errorMinLogger.send
          (Json.render (LogMessage.marshal (errorMinLogger.basicRecord "T" ERROR (sprintfInvalidLevel 99))))
        ++ errorMinLogger.send (Json.render (LogMessage.marshal sampleMsg)), 1) :=
  ⟨by decide, by decide, by decide, by
    have h := invalid_level_selfcorrects errorMinLogger "T" 99 sampleThunk 0
      (by decide) (by decide) (by decide)
    simpa [sampleThunk] using h⟩

/-- **C6.** `NewLogger` fails with the `Unsupported log level` error — and
produces no logger — exactly when the requested minimum is not one of the
five enumerated levels; for a valid minimum it returns the logger bound to
the given sink, service name and minimum level. -/
theorem newLogger_validates {W : Type} (w : W) (serviceName : String) (logLevel : Level) :
    (validLevel logLevel = false →
      NewLogger w serviceName logLevel =
        Except.error ("Unsupported log level: " ++ toString logLevel))
    ∧ (validLevel logLevel = true →
      NewLogger w serviceName logLevel =
        Except.ok { writer := w, serviceName := serviceName, logLevel := logLevel }) := by
  constructor <;> intro h <;> simp [NewLogger, h]

/-- Witness for C6: level 99 is rejected, INFO accepted. -/
theorem newLogger_validates_witness :
    validLevel 99 = false ∧ validLevel INFO = true
    ∧ NewLogger () "svc" 99 = Except.error ("Unsupported log level: " ++ toString (99 : Level))
    ∧ NewLogger () "svc" INFO =
        Except.ok { writer := (), serviceName := "svc", logLevel := INFO } :=
  ⟨by decide, by decide,
   (newLogger_validates () "svc" 99).1 (by decide),
   (newLogger_validates () "svc" INFO).2 (by decide)⟩

/-- **C8.** The internal log operation terminates for every input level
and minimum: modeling the self-call through `Error` as genuine recursion
bounded by fuel, fuel 2 always suffices (the re-entrant diagnostic call
carries the valid level ERROR and so never recurses further), and the
result agrees with the non-recursive `log`. -/
theorem logFuel_two_suffices {W σ : Type} (l : Logger W) (now : String) (L : Level)
    (t : σ → LogMessage × σ) (s : σ) :
    l.logFuel now 2 L t s = some (l.log now L t s) := by
  by_cases h : validLevel L = true
  · simp [Logger.logFuel, Logger.log, h]
  · have h' : validLevel L = false := by simpa using h
    have hE : validLevel ERROR = true := by decide
    simp [Logger.logFuel, Logger.log, h', hE]

/-- **C9.** The instrumentation middleware observes the status eventually
written by the downstream handler — the last `WriteHeader` code, or 200 if
the handler never wrote one — and on completion performs exactly two
metric operations: one histogram duration observation and one counter
increment, both labeled with that status and the request method. -/
theorem middleware_reports_two_labeled_ops (δ : Type) (method : String)
    (writes : List Int) (elapsed : δ) :
    PrometheusInstrumentationMiddleware δ method writes elapsed =
      [MetricOp.observe (strconvItoa ((writes.getLast?).getD 200)) method elapsed,
       MetricOp.inc (strconvItoa ((writes.getLast?).getD 200)) method] := by
  simp [PrometheusInstrumentationMiddleware, serveWith_last, newStatusObserver]

/-- **C10.** For every byte-string input and every configured minimum,
`Write` returns `(len(input), nil)`; when the minimum is above WARNING the
record is filtered and no line reaches the sink, yet the count and nil
error are unchanged. -/
theorem write_full_count_no_error {W σ : Type} (l : Logger W) (now bytes : String) (s : σ)
    (_hM : validLevel l.logLevel = true) :
    (l.Write now bytes s).2 = (bytes.utf8ByteSize, none)
    ∧ (WARNING < l.logLevel → (l.Write now bytes s).1 = ([], s)) := by
  refine ⟨rfl, fun h => ?_⟩
  show l.log now WARNING (l.basicLogMessage now WARNING (trimSuffix bytes "\n")) s = ([], s)
  rw [log_valid_eq _ _ _ _ _ (by decide), logValid_filtered _ _ _ _ h]

/-- Witness for C10: minimum ERROR filters the WARNING record, yet `Write`
still reports all 4 bytes consumed with no error. -/
theorem write_full_count_no_error_witness :
    validLevel errorMinLogger.logLevel = true ∧ WARNING < errorMinLogger.logLevel
    ∧ (errorMinLogger.Write "T" "abc\n" ()).2 = (("abc\n" : String).utf8ByteSize, none)
    ∧ (errorMinLogger.Write "T" "abc\n" ()).1 = ([], ()) :=
  ⟨by decide, by decide,
   (write_full_count_no_error errorMinLogger "T" "abc\n" () (by decide)).1,
   (write_full_count_no_error errorMinLogger "T" "abc\n" () (by decide)).2 (by decide)⟩

/-- **C3.** Writing the raw bytes `"hello\n"` through the byte-sink face
produces exactly one WARNING-level record whose message is `"hello"` (the
trailing newline stripped), and `Write` returns the full count 6 with no
error; and for every input, `Write` never short-writes and never returns an
error.  (The WARNING record passes the filter because the configured
minimum is at most WARNING; the filtered complement is C10.) -/
theorem write_hello_one_warning_record {W σ : Type} (l : Logger W) (now : String) (s : σ)
    (_hM : validLevel l.logLevel = true) (hMw : l.logLevel ≤ WARNING) :
    (l.Write now "hello\n" s).2 = (6, none)
    ∧ (∃ rec : LogMessage,
        (l.Write now "hello\n" s).1 = ([Json.render rec.marshal ++ "\n"], s)
        ∧ rec.Message = "hello" ∧ rec.Log.Level = "WARNING")
    ∧ (∀ b : String, (l.Write now b s).2 = (b.utf8ByteSize, none)) := by
  have ht : trimSuffix "hello\n" "\n" = "hello" := by decide
  refine ⟨rfl, ⟨l.basicRecord now WARNING "hello", ?_, rfl, rfl⟩, fun b => rfl⟩
  show l.log now WARNING (l.basicLogMessage now WARNING (trimSuffix "hello\n" "\n")) s = _
  rw [ht, log_valid_eq _ _ _ _ _ (by decide), logValid_emits _ _ _ _ hMw]
  simp [Logger.basicLogMessage, Logger.send, LogMessage.marshal]

/-- Witness for C3 at minimum INFO. -/
theorem write_hello_one_warning_record_witness :
    validLevel sampleLogger.logLevel = true ∧ sampleLogger.logLevel ≤ WARNING
    ∧ (sampleLogger.Write "T" "hello\n" ()).2 = (6, none)
    ∧ (∃ rec : LogMessage,
        (sampleLogger.Write "T" "hello\n" ()).1 = ([Json.render rec.marshal ++ "\n"], ())
        ∧ rec.Message = "hello" ∧ rec.Log.Level = "WARNING") :=
  ⟨by decide, by decide,
   (write_hello_one_warning_record sampleLogger "T" () (by decide) (by decide)).1,
   (write_hello_one_warning_record sampleLogger "T" () (by decide) (by decide)).2.1⟩

/-- **C7.** Every record logged at a valid, unfiltered level through the
`basicLogMessage` path (used by all five per-level methods) goes to the
sink as the rendering of a JSON document that unmarshals back to exactly
the record, whose message is the formatted string, whose `log.level` is the
canonical level name, and whose `service.name` is the configured name. -/
theorem log_emits_valid_json_roundtrip {W σ : Type} (l : Logger W) (now msgText : String)
    (L : Level) (s : σ) (hL : validLevel L = true) (hGe : l.logLevel ≤ L) :
    ∃ rec : LogMessage,
      l.log now L (l.basicLogMessage now L msgText) s = ([Json.render rec.marshal ++ "\n"], s)
      ∧ decodeLogMessage rec.marshal = some rec
      ∧ rec.Message = msgText
      ∧ rec.Log.Level = LevelString L
      ∧ rec.Service.Name = l.serviceName := by
  refine ⟨l.basicRecord now L msgText, ?_, decodeLogMessage_marshal _, rfl, rfl, rfl⟩
  rw [log_valid_eq _ _ _ _ _ hL, logValid_emits _ _ _ _ hGe]
  simp [Logger.basicLogMessage, Logger.send, LogMessage.marshal]

/-- Witness for C7: an INFO message on the INFO-minimum logger. -/
theorem log_emits_valid_json_roundtrip_witness :
    validLevel INFO = true ∧ sampleLogger.logLevel ≤ INFO
    ∧ ∃ rec : LogMessage,
        sampleLogger.log "T" INFO (sampleLogger.basicLogMessage "T" INFO "hi") ()
          = ([Json.render rec.marshal ++ "\n"], ())
        ∧ decodeLogMessage rec.marshal = some rec
        ∧ rec.Message = "hi"
        ∧ rec.Log.Level = LevelString INFO
        ∧ rec.Service.Name = sampleLogger.serviceName :=
  ⟨by decide, by decide,
   log_emits_valid_json_roundtrip sampleLogger "T" "hi" INFO () (by decide) (by decide)⟩

/-- **C4.** A request with a nonempty `X-Request-ID` header derives a scope
whose emitted records carry a `trace` block with `id` equal to exactly the
header value; a request without the header derives a scope whose emitted
records contain no `trace` key at all (not a null or empty block). -/
theorem request_trace_id_propagates {W σ : Type} (l : Logger W) (now msgText : String)
    (r : Request) (s st : σ) (L : Level) (hL : validLevel L = true) (hGe : l.logLevel ≤ L) :
    (r.xRequestID ≠ "" →
      ((l.Request now r s).1).trace = some ⟨r.xRequestID⟩
      ∧ ∃ rec : LogMessage,
          (((l.Request now r s).1).Log now L msgText st).1 = [Json.render rec.marshal ++ "\n"]
          ∧ Json.lookup rec.marshalFields "trace" = some (Json.obj [("id", Json.str r.xRequestID)]))
    ∧ (r.xRequestID = "" →
      ((l.Request now r s).1).trace = none
      ∧ ∃ rec : LogMessage,
          (((l.Request now r s).1).Log now L msgText st).1 = [Json.render rec.marshal ++ "\n"]
          ∧ Json.lookup rec.marshalFields "trace" = none) := by
  obtain ⟨hlog, htr, hnw, hcl⟩ := request_scope_fields l now r (s := s)
  have hGe' : ((l.Request now r s).1).logger.logLevel ≤ L := by rw [hlog]; exact hGe
  constructor
  · intro hid
    have htr' : ((l.Request now r s).1).trace = some ⟨r.xRequestID⟩ := by
      rw [htr, if_pos hid]
    refine ⟨htr', ((l.Request now r s).1).scopedRecord now L msgText, ?_, ?_⟩
    · rw [scopedLog_emits _ _ _ _ _ hL hGe']
    · unfold RequestScopedLogger.scopedRecord LogMessage.marshalFields
      rw [htr']
      cases hc : ((l.Request now r s).1).client <;>
        simp [Json.lookup, ecsTrace.marshalFields, hid]
  · intro hid
    have htr' : ((l.Request now r s).1).trace = none := by
      rw [htr, if_neg (by simpa using hid)]
    refine ⟨htr', ((l.Request now r s).1).scopedRecord now L msgText, ?_, ?_⟩
    · rw [scopedLog_emits _ _ _ _ _ hL hGe']
    · unfold RequestScopedLogger.scopedRecord LogMessage.marshalFields
      rw [htr']
      cases hc : ((l.Request now r s).1).client <;>
        simp [Json.lookup]

/-- Witness for C4: with the header, `trace.id` is the header value; without
it, the scope carries no trace and the record no `trace` key. -/
theorem request_trace_id_propagates_witness :
    validLevel INFO = true ∧ sampleLogger.logLevel ≤ INFO
    ∧ tracedRequest.xRequestID ≠ "" ∧ untracedRequest.xRequestID = ""
    ∧ ((sampleLogger.Request "T" tracedRequest ()).1).trace = some ⟨"abc-123"⟩
    ∧ ((sampleLogger.Request "T" untracedRequest ()).1).trace = none :=
  ⟨by decide, by decide, by decide, by decide,
   (request_trace_id_propagates sampleLogger "T" "m" tracedRequest () () INFO
      (by decide) (by decide)).1 (by decide) |>.1,
   (request_trace_id_propagates sampleLogger "T" "m" untracedRequest () () INFO
      (by decide) (by decide)).2 (by decide) |>.1⟩

/-- **C5.** When the peer address does not split as `ip:port`, scope
derivation still succeeds: the scope has no `client` block, the trace and
forwarded-for enrichments are exactly as the headers dictate, and the
parent logger emits exactly one ERROR-level diagnostic line describing the
parse failure.  (The diagnostic passes the filter because the configured
minimum admits ERROR records.) -/
theorem request_bad_peer_diagnostic {W σ : Type} (l : Logger W) (now : String) (r : Request)
    (s : σ) (hErr : isErr (splitHostPort r.remoteAddr) = true)
    (_hM : validLevel l.logLevel = true) (hMe : l.logLevel ≤ ERROR) :
    ((l.Request now r s).1).client = none
    ∧ ((l.Request now r s).1).trace = (if r.xRequestID ≠ "" then some ⟨r.xRequestID⟩ else none)
    ∧ ((l.Request now r s).1).network =
        (if r.xForwardedFor ≠ "" then some ⟨r.xForwardedFor⟩ else none)
    ∧ (l.Request now r s).2 =
        ([Json.render (LogMessage.marshal
            (l.basicRecord now ERROR ("Unable to parse " ++ goQuote r.remoteAddr ++ " as IP:port")))
          ++ "\n"], s)
    ∧ (l.basicRecord now ERROR
        ("Unable to parse " ++ goQuote r.remoteAddr ++ " as IP:port")).Log.Level = "ERROR" := by
  cases hsp : splitHostPort r.remoteAddr with
  | ok ap =>
    rw [hsp] at hErr
    exact absurd hErr (by simp [isErr])
  | error e =>
    have hlog : l.Error now ("Unable to parse " ++ goQuote r.remoteAddr ++ " as IP:port") s
        = ([Json.render (LogMessage.marshal
              (l.basicRecord now ERROR ("Unable to parse " ++ goQuote r.remoteAddr ++ " as IP:port")))
            ++ "\n"], s) := by
      unfold Logger.Error
      rw [log_valid_eq _ _ _ _ _ (by decide), logValid_emits _ _ _ _ hMe]
      simp [Logger.basicLogMessage, Logger.send, LogMessage.marshal]
    refine ⟨?_, ?_, ?_, ?_, rfl⟩ <;>
      by_cases hid : r.xRequestID = "" <;> by_cases hf : r.xForwardedFor = "" <;>
        simp [Logger.Request, hsp, hid, hf, hlog]

/-- Witness for C5: the peer `"not-an-address"` yields a clientless scope
and one diagnostic line through the INFO-minimum parent. -/
theorem request_bad_peer_diagnostic_witness :
    isErr (splitHostPort badAddrRequest.remoteAddr) = true
    ∧ validLevel sampleLogger.logLevel = true ∧ sampleLogger.logLevel ≤ ERROR
    ∧ ((sampleLogger.Request "T" badAddrRequest ()).1).client = none
    ∧ ((sampleLogger.Request "T" badAddrRequest ()).2).1.length = 1 := by
  have h := request_bad_peer_diagnostic sampleLogger "T" badAddrRequest ()
    (by decide) (by decide) (by decide)
  exact ⟨by decide, by decide, by decide, h.1, by rw [h.2.2.2.1]; rfl⟩

end ServiceLib
